import Mathlib

/-!
Verification of the GameGenie request/response correlation and framing layer.

The development shallowly embeds the two transport variants of the repository:

* `src/game_genie_mcp/src/server.py` — the websocket variant
  (`GameGenieWebSocketServer`): a shared `response_queue` holding area,
  `send_command_to_unity`, `wait_for_response`, the connection handler that
  designates the primary Unity peer, and the MCP tool functions built on top.
* `src/mcp_server/game_genie_mcp.py` — the raw-socket variant
  (`UnityConnection`): `receive_full_response` chunk accumulation,
  `send_command`, and the `get_unity_connection` accessor with its ping
  health check.

Python dictionaries that travel over the wire are modelled as flat records of
optional fields; time is modelled in tenths of a second (the `asyncio.Queue`
get sub-interval of 1.0 s costs 10 units, the 0.1 s requeue sleep costs 1).
-/

/-- A parsed JSON message as the websocket server sees it: the fields the
server code actually reads (`client`, `type`, `message_id`, `success`,
`data`, `error`); `data` is the already-serialized payload, `none` meaning
the key is absent (`json.dumps(response.get('data', {}))` then prints an
empty object). -/
structure JsonMsg where
  client : Option String
  type : Option String
  message_id : Option String
  success : Option Bool
  data : Option String
  error : Option String
deriving Repr, DecidableEq

/-- Serialization of `response.get('data', {})` through `json.dumps`: an
absent `data` key prints as the empty JSON object. -/
def dumpData : Option String → String
  | none => "\x7b\x7d"
  | some s => s

/-- Outcome of one run of the `wait_for_response` polling loop: either a
response was matched, or the wall-clock budget elapsed. -/
inductive WaitOutcome where
  | found (r : JsonMsg)
  | timedOut
deriving Repr, DecidableEq

/-- The polling loop of `GameGenieWebSocketServer.wait_for_response`
(server.py lines 190–215), one waiter's run over the holding area.
`tT` is the timeout in tenths of a second and `elapsed` the clock;
the loop guard is `(time.time() - start_time) < timeout`.  An empty
queue costs a full 1.0 s `asyncio.wait_for` sub-interval (10 units);
taking a non-matching response off the queue puts it back at the tail
and sleeps 0.1 s (1 unit); a response whose `message_id` equals the
awaited id exactly is returned and stays removed from the queue.
Returns (outcome, final queue, final elapsed time). -/
def wait_for_response_aux (mid : String) (tT : Nat) (elapsed : Nat)
    (q : List JsonMsg) : WaitOutcome × List JsonMsg × Nat :=
  if h : elapsed < tT then
    match q with
    | [] => wait_for_response_aux mid tT (elapsed + 10) []
    | r :: rest =>
      if r.message_id = some mid then
        (.found r, rest, elapsed)
      else
        wait_for_response_aux mid tT (elapsed + 1) (rest ++ [r])
  else
    (.timedOut, q, elapsed)
termination_by tT - elapsed
decreasing_by
  · omega
  · omega

/-- Default `timeout` parameter of `wait_for_response` (seconds). -/
def default_timeout : Nat := 30

/-- The timeout dictionary returned by `wait_for_response` on expiry:
an error-keyed value, not an exception. -/
def timeout_error_msg (timeout : Nat) : JsonMsg :=
  ⟨none, none, none, none, none,
    some ("Timeout waiting for response after " ++ toString timeout ++ " seconds")⟩

/-- `GameGenieWebSocketServer.wait_for_response` as the tool functions see
it: a dictionary either way (the matched response, or the timeout error
dictionary), plus the queue left behind and the elapsed time in tenths. -/
def wait_for_response (mid : String) (timeout : Nat) (q : List JsonMsg) :
    JsonMsg × List JsonMsg × Nat :=
  match wait_for_response_aux mid (10 * timeout) 0 q with
  | (.found r, q', e) => (r, q', e)
  | (.timedOut, q', e) => (timeout_error_msg timeout, q', e)

/-- The list of responses a wait outcome delivered (one or none). -/
def deliveredOf : WaitOutcome → List JsonMsg
  | .found r => [r]
  | .timedOut => []

/-- One logical caller suspended in `wait_for_response`: the message id it
awaits and the response delivered to it so far (if any). -/
structure Waiter where
  awaited : String
  delivered : Option JsonMsg
deriving Repr, DecidableEq

/-- Shared correlator state: the `response_queue` holding area plus the set
of concurrently pending waiters. -/
structure CorrState where
  queue : List JsonMsg
  waiters : List Waiter
deriving Repr, DecidableEq

/-- One interleaved scheduler step of the correlator.  `deliver` and
`requeue` are the two arms of the `wait_for_response` loop body run by
waiter `i` (`response_queue.get` pops the head; an exact `message_id`
match is kept and stays removed, anything else is put back at the tail);
`ingest` is `handle_connection` placing an inbound message with
`type == "response"` (and no `client == "Unity"` announcement, which the
`if`/`elif` chain consumes first) into the shared queue. -/
inductive CorrStep : CorrState → CorrState → Prop where
  | deliver (i : Nat) (w : Waiter) (r : JsonMsg) (rest : List JsonMsg)
      (ws : List Waiter) :
      ws.get? i = some w →
      w.delivered = none →
      r.message_id = some w.awaited →
      CorrStep ⟨r :: rest, ws⟩ ⟨rest, ws.set i ⟨w.awaited, some r⟩⟩
  | requeue (i : Nat) (w : Waiter) (r : JsonMsg) (rest : List JsonMsg)
      (ws : List Waiter) :
      ws.get? i = some w →
      w.delivered = none →
      r.message_id ≠ some w.awaited →
      CorrStep ⟨r :: rest, ws⟩ ⟨rest ++ [r], ws⟩
  | ingest (r : JsonMsg) (q : List JsonMsg) (ws : List Waiter) :
      r.client ≠ some "Unity" →
      r.type = some "response" →
      CorrStep ⟨q, ws⟩ ⟨q ++ [r], ws⟩

/-- An interleaving of correlator steps. -/
def CorrReach : CorrState → CorrState → Prop :=
  Relation.ReflTransGen CorrStep

-- Command names the MCP tools send to the Unity editor
-- (the UnityTools enumeration in server.py).
namespace UnityTools

def GET_SCENE_CONTEXT : String := "get_scene_context"

def ADD_SCRIPT_TO_PROJECT : String := "add_script_to_project"

def EDIT_EXISTING_SCRIPT : String := "edit_existing_script"

end UnityTools

-- Sentinel message ids (the SpecialMessages enumeration in server.py).
namespace SpecialMessages

def RELOAD_SCRIPTS : String := "reload_scripts"

end SpecialMessages

/-- The outgoing wire frame built by `send_command_to_unity`:
`json.dumps(\x7b"command": ..., "params": ..., "message_id": ...\x7d)`,
where `params` was first mutated to carry the same `message_id`. -/
structure WireCommand where
  command : String
  params : List (String × String)
  message_id : String
deriving Repr, DecidableEq

/-- Mutable state of `GameGenieWebSocketServer`: the set of attached
websocket endpoints (as opaque ids), the endpoint currently designated
the Unity peer, and the shared `response_queue`. -/
structure WSServerState where
  connected_clients : List Nat
  unity_client : Option Nat
  response_queue : List JsonMsg
deriving Repr, DecidableEq

/-- `GameGenieWebSocketServer.send_command_to_unity` (server.py 167–187):
returns the error string when no Unity client is designated; otherwise
mints `freshId` (the `uuid.uuid4()` draw), serializes the frame, and
either returns the id (write succeeded) or the exception string
(`writeErr` names the exception raised by `websocket.send`).  The middle
component is the frame actually written, if any.  Note the function never
consults the response queue and never mutates the server state. -/
def send_command_to_unity (s : WSServerState) (command : String)
    (params : List (String × String)) (freshId : String)
    (writeErr : Option String) : String × Option WireCommand × WSServerState :=
  match s.unity_client with
  | none => ("no Unity client connected", none, s)
  | some _ =>
    match writeErr with
    | none => (freshId, some ⟨command, params ++ [("message_id", freshId)], freshId⟩, s)
    | some e => ("Error: " ++ e, none, s)

/-- The per-message body of `GameGenieWebSocketServer.handle_connection`
(server.py 140–147): an announcement with `client == "Unity"` designates
the sender as the Unity peer; otherwise a `type == "response"` message is
pushed onto the shared queue; anything else is ignored. -/
def processMessage (s : WSServerState) (ws : Nat) (m : JsonMsg) : WSServerState :=
  if m.client = some "Unity" then { s with unity_client := some ws }
  else if m.type = some "response" then
    { s with response_queue := s.response_queue ++ [m] }
  else s

/-- Connection attach in `handle_connection` (server.py 125):
`self.connected_clients.add(websocket)`. -/
def handle_connect (s : WSServerState) (ws : Nat) : WSServerState :=
  { s with connected_clients := s.connected_clients ++ [ws] }

/-- The `finally:` block of `handle_connection` (server.py 162–164), run
when an endpoint disconnects: `self.connected_clients.remove(websocket)`.
Nothing else in the handler touches `unity_client`. -/
def handle_disconnect (s : WSServerState) (ws : Nat) : WSServerState :=
  { s with connected_clients := s.connected_clients.erase ws }

/-- The `get_scene_context` MCP tool (server.py 275–299): sends the
command, then unconditionally awaits a response keyed on whatever string
`send_command_to_unity` returned — the generated id on success, the error
string on failure — and formats the `data` payload of whatever dictionary
the wait produced. -/
def get_scene_context (s : WSServerState) (freshId : String)
    (writeErr : Option String) : String × WSServerState :=
  let sent := send_command_to_unity s UnityTools.GET_SCENE_CONTEXT [] freshId writeErr
  let waited := wait_for_response sent.1 default_timeout sent.2.2.response_queue
  ("Scene context extracted successfully: " ++ dumpData waited.1.data,
   { sent.2.2 with response_queue := waited.2.1 })

/-- The `add_script_to_project` MCP tool (server.py 323–350): sends the
command, awaits its response by generated id, then awaits the script
reload notification by the fixed sentinel id `"reload_scripts"`, and picks
the success message according to the notification's `success` flag. -/
def add_script_to_project (s : WSServerState) (relative_path source_code : String)
    (freshId : String) (writeErr : Option String) : String × WSServerState :=
  let sent := send_command_to_unity s UnityTools.ADD_SCRIPT_TO_PROJECT
      [("relative_path", relative_path), ("source_code", source_code)] freshId writeErr
  let waited := wait_for_response sent.1 default_timeout sent.2.2.response_queue
  let reloaded := wait_for_response SpecialMessages.RELOAD_SCRIPTS default_timeout waited.2.1
  if reloaded.1.success = some true then
    ("Script added and reloaded successfully: " ++ dumpData waited.1.data,
     { sent.2.2 with response_queue := reloaded.2.1 })
  else
    ("Script added successfully but did not reload: " ++ dumpData waited.1.data,
     { sent.2.2 with response_queue := reloaded.2.1 })

/-- The `edit_existing_script` MCP tool (server.py 353–386): same shape as
`add_script_to_project` with the edit command and messages. -/
def edit_existing_script (s : WSServerState) (relative_path new_source_code : String)
    (freshId : String) (writeErr : Option String) : String × WSServerState :=
  let sent := send_command_to_unity s UnityTools.EDIT_EXISTING_SCRIPT
      [("relative_path", relative_path), ("new_source_code", new_source_code)] freshId writeErr
  let waited := wait_for_response sent.1 default_timeout sent.2.2.response_queue
  let reloaded := wait_for_response SpecialMessages.RELOAD_SCRIPTS default_timeout waited.2.1
  if reloaded.1.success = some true then
    ("Script edited and reloaded successfully: " ++ dumpData waited.1.data,
     { sent.2.2 with response_queue := reloaded.2.1 })
  else
    ("Script edited successfully but did not reload: " ++ dumpData waited.1.data,
     { sent.2.2 with response_queue := reloaded.2.1 })

/-- What one `sock.recv(buffer_size)` call yields in
`UnityConnection.receive_full_response` (game_genie_mcp.py 59–117):
some bytes (possibly empty, modelled as an opaque chunk string), a
`socket.timeout` after the fixed 15 s receive timeout, or a
`ConnectionError`/`BrokenPipeError`/`ConnectionResetError`. -/
inductive ReadEvent where
  | data (b : String)
  | timeout
  | connError
deriving Repr, DecidableEq

/-- Result of `UnityConnection.receive_full_response`: the accumulated
chunks of a complete message, or one of the exceptions the method raises
(connection closed before any data, incomplete JSON at the final decode,
no data at all, or a re-raised connection error). -/
inductive RecvOutcome where
  | ok (chunks : List String)
  | errClosedNoData
  | errIncomplete
  | errNoData
  | errConn
deriving Repr, DecidableEq

/-- The tail of `receive_full_response` (game_genie_mcp.py 104–117), run
after the read loop stops accumulating: the bytes collected so far get
one last decode attempt; decode failure is terminal for the request, and
an empty buffer raises the distinct no-data error. -/
def finalize_buffer (parses : List String → Bool) (chunks : List String) :
    RecvOutcome :=
  match chunks with
  | [] => .errNoData
  | c :: cs => if parses (c :: cs) then .ok (c :: cs) else .errIncomplete

/-- The chunk-accumulation loop of `UnityConnection.receive_full_response`
(game_genie_mcp.py 59–117).  `parses` is `json.loads` success on the
joined buffer; `events` is the schedule of what each `recv` call yields;
`chunks` is the buffer accumulated so far.  An empty read with an empty
buffer raises the connection-closed error; an empty read with a non-empty
buffer ends the burst and falls through to the final decode; after each
non-empty chunk the whole buffer is tried as one message; a socket
timeout ends the loop and falls through to the final decode; a connection
error is re-raised.  An exhausted schedule is treated as the 15 s timeout
firing (with a real socket the schedule cannot run out: `settimeout(15.0)`
makes every `recv` produce one of these events). -/
def receive_full_response (parses : List String → Bool) :
    List ReadEvent → List String → RecvOutcome
  | [], chunks => finalize_buffer parses chunks
  | .data b :: evs, chunks =>
    if b = "" then
      match chunks with
      | [] => .errClosedNoData
      | _ :: _ => finalize_buffer parses chunks
    else
      if parses (chunks ++ [b]) then .ok (chunks ++ [b])
      else receive_full_response parses evs (chunks ++ [b])
  | .timeout :: _, chunks => finalize_buffer parses chunks
  | .connError :: _, _ => .errConn

/-- The nested `result` object of a Unity response: `send_command` returns
`response.get("result", \x7b\x7d)` and `get_unity_connection` then reads
its `status` field for the ping health check; the rest is opaque. -/
structure ResultPayload where
  status : Option String
  payload : String
deriving Repr, DecidableEq

/-- A decoded top-level Unity response in the socket variant: the fields
`send_command` reads (`status`, `message`, `result`). -/
structure SockResponse where
  status : Option String
  message : Option String
  result : Option ResultPayload
deriving Repr, DecidableEq

/-- What `self.sock.sendall` does on a given call: succeeds, raises
`socket.timeout`, or raises a connection-class error. -/
inductive WireResult where
  | ok
  | timeout
  | connError
deriving Repr, DecidableEq

/-- Environment of one `UnityConnection.send_command` call: the socket
`connect()` would yield if attempted (`none` = unreachable peer), the
outcome of the write, the schedule of `recv` events, and the JSON decode
of an accumulated buffer (`none` = not valid JSON). -/
structure SendEnv where
  connectSock : Option Nat
  wire : WireResult
  recvEvents : List ReadEvent
  decode : List String → Option SockResponse

/-- The `json.loads` success test used while accumulating chunks is decode
success of the joined buffer. -/
def envParses (env : SendEnv) : List String → Bool :=
  fun cs => (env.decode cs).isSome

/-- Mutable state of a `UnityConnection`: the socket reference (`sock`),
`none` when disconnected or invalidated; sockets are opaque ids. -/
structure UnityConnState where
  sock : Option Nat
deriving Repr, DecidableEq

/-- Outcome of `UnityConnection.send_command`: the `result` payload on
success, or one of the exceptions the method raises.  `errComm` carries
the generic communication-error message; `errInvalidJson` is the
`json.JSONDecodeError` handler (the one handler that does not clear
`self.sock`, kept for faithfulness although unreachable). -/
inductive CmdOutcome where
  | ok (result : ResultPayload)
  | errNotConnected
  | errTimeout
  | errConnLost
  | errInvalidJson
  | errComm (msg : String)
deriving Repr, DecidableEq

/-- Whether a `send_command` outcome is a raised exception. -/
def CmdOutcome.isErr : CmdOutcome → Bool
  | .ok _ => false
  | _ => true

/-- `UnityConnection.send_command` (game_genie_mcp.py 119–173).
`if not self.sock and not self.connect()` connects inline when no socket
exists and raises `ConnectionError` only if that connect also fails; then
the command is written and the response awaited via
`receive_full_response` before anything is returned.  Every handler that
catches an exception sets `self.sock = None` before re-raising, except
the `json.JSONDecodeError` handler — which can never fire, because
`receive_full_response` only returns buffers that already parsed.
A top-level `status == "error"` response raises, and lands in the generic
handler (socket cleared).  Returns (outcome, state after the call). -/
def send_command (c : UnityConnState) (env : SendEnv) (ctype : String)
    (params : List (String × String)) : CmdOutcome × UnityConnState :=
  match (match c.sock with | some s => some s | none => env.connectSock) with
  | none => (.errNotConnected, ⟨none⟩)
  | some s =>
    match env.wire with
    | .timeout => (.errTimeout, ⟨none⟩)
    | .connError => (.errConnLost, ⟨none⟩)
    | .ok =>
      match receive_full_response (envParses env) env.recvEvents [] with
      | .ok chunks =>
        match env.decode chunks with
        | none => (.errInvalidJson, ⟨some s⟩)
        | some resp =>
          if resp.status = some "error" then
            (.errComm ("Communication error with Unity: "
              ++ resp.message.getD "Unknown error from Unity"), ⟨none⟩)
          else
            (.ok (resp.result.getD ⟨none, ""⟩), ⟨some s⟩)
      | .errConn => (.errConnLost, ⟨none⟩)
      | .errClosedNoData =>
        (.errComm "Communication error with Unity: Connection closed before receiving any data",
         ⟨none⟩)
      | .errNoData =>
        (.errComm "Communication error with Unity: No data received", ⟨none⟩)
      | .errIncomplete =>
        (.errComm "Communication error with Unity: Incomplete JSON response received",
         ⟨none⟩)

/-- The creation half of `get_unity_connection` (game_genie_mcp.py
239–250): build a fresh `UnityConnection` and `connect()` it; on failure
the global stays `None` and the descriptive error is raised. -/
def create_new_connection (newSock : Option Nat) :
    Except String UnityConnState × Option UnityConnState :=
  match newSock with
  | some s => (.ok ⟨some s⟩, some ⟨some s⟩)
  | none => (.error "Could not connect to Unity. Make sure the Unity addon is running.",
             none)

/-- The health-check test of `get_unity_connection`: the ping call must
return normally and its result must carry `status == "ok"`; any exception
or other result fails the check. -/
def ping_healthy : CmdOutcome → Bool
  | .ok result => result.status = some "ok"
  | _ => false

/-- `get_unity_connection` (game_genie_mcp.py 215–250): when a global
connection exists, health-check it by sending a `ping` and requiring
`result.status == "ok"`; on any other result or exception, disconnect it
and build a fresh connection.  `g` is the `_unity_connection` global,
`pingEnv` the environment of the ping call, `newSock` what a fresh
`connect()` would yield.  Returns (raised-or-returned connection, global
after the call). -/
def get_unity_connection (g : Option UnityConnState) (pingEnv : SendEnv)
    (newSock : Option Nat) :
    Except String UnityConnState × Option UnityConnState :=
  match g with
  | none => create_new_connection newSock
  | some c =>
    let pinged := send_command c pingEnv "ping" []
    if ping_healthy pinged.1 then (.ok pinged.2, some pinged.2)
    else create_new_connection newSock

/-! ## Helper lemmas about the wait loop -/

/-- When the queue never holds a matching response, the wait loop returns
the timeout outcome, and its clock stops inside one 1.0 s sub-interval of
the configured budget. -/
theorem wait_aux_no_match (mid : String) (tT : Nat) (e : Nat) (q : List JsonMsg)
    (hb : e < tT + 10) (hq : ∀ r ∈ q, r.message_id ≠ some mid) :
    (wait_for_response_aux mid tT e q).1 = .timedOut
      ∧ tT ≤ (wait_for_response_aux mid tT e q).2.2
      ∧ (wait_for_response_aux mid tT e q).2.2 < tT + 10 := by
  induction e, q using wait_for_response_aux.induct mid tT with
  | case1 e he ih =>
    rw [wait_for_response_aux]
    simp only [he, dif_pos]
    exact ih (by omega) (by simp)
  | case2 e he r rest hm =>
    exact absurd hm (hq r (by simp))
  | case3 e he r rest hm ih =>
    rw [wait_for_response_aux]
    simp only [he, dif_pos, hm, if_neg]
    refine ih (by omega) ?_
    intro x hx
    rcases List.mem_append.mp hx with h1 | h1
    · exact hq x (List.mem_cons_of_mem _ h1)
    · simp at h1; subst h1; exact hm
  | case4 e q he =>
    rw [wait_for_response_aux.eq_def]
    simp only [dif_neg he]
    exact ⟨trivial, by omega, by omega⟩

/-- A matching response at the head of the queue is delivered at once and
removed, provided the budget has not yet elapsed. -/
theorem wait_aux_found_head (mid : String) (tT e : Nat) (r : JsonMsg)
    (rest : List JsonMsg) (hm : r.message_id = some mid) (he : e < tT) :
    wait_for_response_aux mid tT e (r :: rest) = (.found r, rest, e) := by
  rw [wait_for_response_aux]
  simp [he, hm]

/-! ## Claim theorems: the wait loop -/

/-- claim C10: one run of `wait_for_response` never discards a
non-matching response — the input queue is a permutation of the delivered
response (if any) together with the queue it leaves behind, for every
awaited id, budget, clock value and queue. -/
theorem wait_for_response_preserves_queue (mid : String) (tT e : Nat)
    (q : List JsonMsg) :
    q.Perm (deliveredOf (wait_for_response_aux mid tT e q).1
      ++ (wait_for_response_aux mid tT e q).2.1) := by
  induction e, q using wait_for_response_aux.induct mid tT with
  | case1 e he ih =>
    rw [wait_for_response_aux]
    simp only [he, dif_pos]
    exact ih
  | case2 e he r rest hm =>
    rw [wait_for_response_aux]
    simp only [he, dif_pos, hm, if_pos]
    simp [deliveredOf]
  | case3 e he r rest hm ih =>
    rw [wait_for_response_aux]
    simp only [he, dif_pos, hm, if_neg]
    exact (List.perm_append_singleton r rest).symm.trans ih
  | case4 e q he =>
    rw [wait_for_response_aux.eq_def]
    simp only [dif_neg he]
    simp [deliveredOf]

/-- claim C4: when no response carrying the awaited id is in the holding
area, `wait_for_response` returns the distinguishable timed-out outcome
(a value, not an exception): the loop outcome is `timedOut`, the caller
receives the error-keyed timeout dictionary, and the wall clock at return
lies within one 1.0 s sub-interval above the configured budget of
`timeout` seconds (`default_timeout = 30` in the tools), so the wait
terminates at approximately the configured timeout. -/
theorem wait_for_response_timeout_result (mid : String) (timeout : Nat)
    (q : List JsonMsg) (hq : ∀ r ∈ q, r.message_id ≠ some mid) :
    (wait_for_response_aux mid (10 * timeout) 0 q).1 = .timedOut
    ∧ 10 * timeout ≤ (wait_for_response_aux mid (10 * timeout) 0 q).2.2
    ∧ (wait_for_response_aux mid (10 * timeout) 0 q).2.2 < 10 * timeout + 10
    ∧ (wait_for_response mid timeout q).1 = timeout_error_msg timeout
    ∧ (timeout_error_msg timeout).error ≠ none := by
  obtain ⟨h1, h2, h3⟩ := wait_aux_no_match mid (10 * timeout) 0 q (by omega) hq
  refine ⟨h1, h2, h3, ?_, by simp [timeout_error_msg]⟩
  unfold wait_for_response
  rcases haux : wait_for_response_aux mid (10 * timeout) 0 q with ⟨out, q', e⟩
  rw [haux] at h1
  simp only at h1
  subst h1
  rfl

/-- Witness for claim C4 at a concrete input: a single queued response for
id "B" while waiting on id "A" with a 1 second budget. -/
theorem wait_for_response_timeout_result_witness :
    (wait_for_response_aux "A" (10 * 1) 0
        [⟨none, some "response", some "B", none, none, none⟩]).1 = .timedOut
    ∧ 10 * 1 ≤ (wait_for_response_aux "A" (10 * 1) 0
        [⟨none, some "response", some "B", none, none, none⟩]).2.2
    ∧ (wait_for_response_aux "A" (10 * 1) 0
        [⟨none, some "response", some "B", none, none, none⟩]).2.2 < 10 * 1 + 10
    ∧ (wait_for_response "A" 1
        [⟨none, some "response", some "B", none, none, none⟩]).1 = timeout_error_msg 1
    ∧ (timeout_error_msg 1).error ≠ none :=
  wait_for_response_timeout_result "A" 1
    [⟨none, some "response", some "B", none, none, none⟩] (by decide)

/-! ## Claim theorems: dispatcher failure path and frame reader -/

/-- claim C3 (code bug): with no Unity client connected, `get_scene_context`
does not return a failure immediately after the failed send.  Instead it
passes the error string returned by `send_command_to_unity` to
`wait_for_response` as if it were a message id, waits out the whole
default 30 s budget (the second conjunct: the wait on the error string
over the empty queue consumes the full `10 * default_timeout` tenths),
and then reports the success-labelled message with an empty data object.
The spec requires: if `sendCommand` fails, return Failure immediately. -/
theorem get_scene_context_failure_not_immediate :
    (get_scene_context ⟨[], none, []⟩ "fresh-uuid" none).1
        = "Scene context extracted successfully: \x7b\x7d"
    ∧ (wait_for_response "no Unity client connected" default_timeout []).2.2
        = 10 * default_timeout := by
  constructor
  · simp [get_scene_context, send_command_to_unity, wait_for_response,
      default_timeout, dumpData, timeout_error_msg, wait_for_response_aux]
  · simp [wait_for_response, default_timeout, wait_for_response_aux]

/-- claim C5: in `receive_full_response`, an empty read with an empty
accumulation buffer raises the connection-closed error (fatal), while an
empty read with a non-empty buffer ends the burst: the accumulated bytes
get the final decode attempt (returning the message when they parse)
instead of the empty read itself being treated as an error. -/
theorem receive_empty_read_cases :
    (∀ parses evs,
      receive_full_response parses (ReadEvent.data "" :: evs) [] = .errClosedNoData)
    ∧ (∀ parses evs c cs,
      receive_full_response parses (ReadEvent.data "" :: evs) (c :: cs)
        = (if parses (c :: cs) then .ok (c :: cs) else .errIncomplete)) := by
  constructor
  · intro parses evs
    rfl
  · intro parses evs c cs
    rfl

/-- claim C6: when the 15 s receive timeout fires during accumulation, the
bytes gathered so far get exactly one final decode attempt: if it
succeeds the message is returned, if it fails the terminal
incomplete-response error is raised, and when nothing at all was received
the distinct no-data error is raised. -/
theorem receive_timeout_final_decode :
    ∀ parses evs cs,
      receive_full_response parses (ReadEvent.timeout :: evs) cs
        = (match cs with
           | [] => RecvOutcome.errNoData
           | c :: cs' => if parses (c :: cs') then .ok (c :: cs') else .errIncomplete) := by
  intro parses evs cs
  cases cs <;> rfl

/-! ## Claim theorems: the correlator transition system -/

/-- Completing waiter `i` does not change any waiter's awaited id. -/
theorem map_awaited_set (ws : List Waiter) (i : Nat) (w : Waiter) (r : JsonMsg)
    (hget : ws.get? i = some w) :
    (ws.set i ⟨w.awaited, some r⟩).map Waiter.awaited = ws.map Waiter.awaited := by
  induction ws generalizing i with
  | nil => simp at hget
  | cons a t ih =>
    cases i with
    | zero =>
      simp only [List.get?] at hget
      cases hget
      simp
    | succ n =>
      simp only [List.get?] at hget
      simp [ih n hget]

/-- Completing waiter `i` with response `r` adds exactly `r` to the
multiset of delivered responses. -/
theorem filterMap_delivered_set (ws : List Waiter) (i : Nat) (w : Waiter)
    (r : JsonMsg) (hget : ws.get? i = some w) (hnone : w.delivered = none) :
    ((ws.set i ⟨w.awaited, some r⟩).filterMap Waiter.delivered).Perm
      (r :: ws.filterMap Waiter.delivered) := by
  induction ws generalizing i with
  | nil => simp at hget
  | cons a t ih =>
    cases i with
    | zero =>
      simp only [List.get?] at hget
      cases hget
      simp [List.filterMap_cons, hnone]
    | succ n =>
      simp only [List.get?] at hget
      cases hda : a.delivered with
      | none =>
        simpa [List.filterMap_cons, hda] using ih n hget
      | some x =>
        simp only [List.set, List.filterMap_cons, hda]
        exact ((ih n hget).cons x).trans (List.Perm.swap r x _)

/-- The exact-match invariant: every delivered response carries exactly
the id its waiter awaited. -/
def Inv1 (s : CorrState) : Prop :=
  ∀ w ∈ s.waiters, ∀ r, w.delivered = some r → r.message_id = some w.awaited

/-- One correlator step preserves the exact-match invariant. -/
theorem step_inv1 {s s' : CorrState} (hstep : CorrStep s s') (h : Inv1 s) :
    Inv1 s' := by
  cases hstep with
  | deliver i w r rest ws hget hnone hm =>
    intro w' hw' r' hr'
    rcases List.mem_or_eq_of_mem_set hw' with hmem | rfl
    · exact h w' hmem r' hr'
    · cases hr'
      exact hm
  | requeue i w r rest ws hget hnone hm => exact h
  | ingest r q ws hc ht => exact h

/-- One correlator step preserves all awaited ids. -/
theorem step_awaited {s s' : CorrState} (hstep : CorrStep s s') :
    s'.waiters.map Waiter.awaited = s.waiters.map Waiter.awaited := by
  cases hstep with
  | deliver i w r rest ws hget hnone hm => exact map_awaited_set ws i w r hget
  | requeue i w r rest ws hget hnone hm => rfl
  | ingest r q ws hc ht => rfl

/-- One correlator step conserves responses: queue plus delivered
responses afterwards is the queue plus delivered responses before, plus
whatever the step ingested. -/
theorem step_conserve {s s' : CorrState} (hstep : CorrStep s s') :
    ∃ ing : List JsonMsg,
      (s'.queue ++ s'.waiters.filterMap Waiter.delivered).Perm
        (s.queue ++ s.waiters.filterMap Waiter.delivered ++ ing) := by
  cases hstep with
  | deliver i w r rest ws hget hnone hm =>
    refine ⟨[], ?_⟩
    simp only [List.append_nil]
    have h1 := List.Perm.append_left rest (filterMap_delivered_set ws i w r hget hnone)
    have h2 : (rest ++ r :: ws.filterMap Waiter.delivered).Perm
        ((r :: rest) ++ ws.filterMap Waiter.delivered) := by
      simpa using List.perm_middle
    exact h1.trans h2
  | requeue i w r rest ws hget hnone hm =>
    refine ⟨[], ?_⟩
    simp only [List.append_nil]
    exact List.Perm.append_right _ (List.perm_append_singleton r rest)
  | ingest r q ws hc ht =>
    refine ⟨[r], ?_⟩
    rw [List.append_assoc, List.append_assoc]
    exact List.Perm.append_left q List.perm_append_comm

/-- The combined invariant holds along every interleaving. -/
theorem reach_inv {s0 s1 : CorrState} (hreach : CorrReach s0 s1) (h0 : Inv1 s0) :
    Inv1 s1 ∧ s1.waiters.map Waiter.awaited = s0.waiters.map Waiter.awaited
    ∧ ∃ ing : List JsonMsg,
        (s1.queue ++ s1.waiters.filterMap Waiter.delivered).Perm
          (s0.queue ++ s0.waiters.filterMap Waiter.delivered ++ ing) := by
  induction hreach with
  | refl => exact ⟨h0, rfl, [], by simp⟩
  | tail hr hstep ih =>
    obtain ⟨hi, hm, ing, hp⟩ := ih
    obtain ⟨ing2, hp2⟩ := step_conserve hstep
    exact ⟨step_inv1 hstep hi, (step_awaited hstep).trans hm, ing ++ ing2,
      by simpa [List.append_assoc] using hp2.trans (List.Perm.append_right ing2 hp)⟩

/-- claim C1: along any interleaving of deliver, requeue and ingest steps
from a state of pending waiters with pairwise-distinct awaited ids and no
deliveries yet, (1) a response is delivered only to a waiter whose
awaited id equals the response's `message_id` exactly; (2) each response
is delivered to at most one waiter; and (3) responses are conserved: the
holding area plus the delivered responses is a permutation of the initial
holding area plus the ingested responses — in particular a delivered
response has been removed from the holding area. -/
theorem correlator_exclusive_delivery (s0 s1 : CorrState)
    (h0 : ∀ w ∈ s0.waiters, w.delivered = none)
    (hd : (s0.waiters.map Waiter.awaited).Nodup)
    (hreach : CorrReach s0 s1) :
    (∀ w ∈ s1.waiters, ∀ r, w.delivered = some r → r.message_id = some w.awaited)
    ∧ (∀ i j wi wj r, s1.waiters.get? i = some wi → s1.waiters.get? j = some wj →
        wi.delivered = some r → wj.delivered = some r → i = j)
    ∧ (∃ ingested : List JsonMsg,
        (s1.queue ++ s1.waiters.filterMap Waiter.delivered).Perm
          (s0.queue ++ ingested)) := by
  have h0' : Inv1 s0 := by
    intro w hw r hr
    rw [h0 w hw] at hr
    cases hr
  obtain ⟨hi, hm, ing, hp⟩ := reach_inv hreach h0'
  refine ⟨hi, ?_, ing, ?_⟩
  · intro i j wi wj r hgi hgj hdi hdj
    have hai : r.message_id = some wi.awaited := hi wi (List.get?_mem hgi) r hdi
    have haj : r.message_id = some wj.awaited := hi wj (List.get?_mem hgj) r hdj
    have haw : wi.awaited = wj.awaited := by
      rw [hai] at haj
      exact Option.some.inj haj
    have hmi : (s1.waiters.map Waiter.awaited).get? i = some wi.awaited := by
      rw [List.get?_map, hgi]
      rfl
    have hmj : (s1.waiters.map Waiter.awaited).get? j = some wj.awaited := by
      rw [List.get?_map, hgj]
      rfl
    have hlen : i < (s1.waiters.map Waiter.awaited).length :=
      (List.get?_eq_some.mp hmi).1
    refine List.get?_inj hlen (hm ▸ hd) ?_
    rw [hmi, hmj, haw]
  · have hnil : s0.waiters.filterMap Waiter.delivered = [] := by
      rw [List.filterMap_eq_nil]
      intro w hw
      exact h0 w hw
    rw [hnil] at hp
    simpa using hp

/-- Witness for claim C1: one waiter awaiting id "A", one queued response
for id "A", one deliver step. -/
theorem correlator_exclusive_delivery_witness :
    (∀ w ∈ (⟨[], [⟨"A", some ⟨none, some "response", some "A", none, none, none⟩⟩]⟩ :
        CorrState).waiters,
      ∀ r, w.delivered = some r → r.message_id = some w.awaited)
    ∧ (∀ i j wi wj r,
        (⟨[], [⟨"A", some ⟨none, some "response", some "A", none, none, none⟩⟩]⟩ :
          CorrState).waiters.get? i = some wi →
        (⟨[], [⟨"A", some ⟨none, some "response", some "A", none, none, none⟩⟩]⟩ :
          CorrState).waiters.get? j = some wj →
        wi.delivered = some r → wj.delivered = some r → i = j)
    ∧ (∃ ingested : List JsonMsg,
        ((⟨[], [⟨"A", some ⟨none, some "response", some "A", none, none, none⟩⟩]⟩ :
            CorrState).queue
          ++ (⟨[], [⟨"A", some ⟨none, some "response", some "A", none, none, none⟩⟩]⟩ :
            CorrState).waiters.filterMap Waiter.delivered).Perm
          ((⟨[⟨none, some "response", some "A", none, none, none⟩], [⟨"A", none⟩]⟩ :
            CorrState).queue ++ ingested)) :=
  correlator_exclusive_delivery
    ⟨[⟨none, some "response", some "A", none, none, none⟩], [⟨"A", none⟩]⟩
    ⟨[], [⟨"A", some ⟨none, some "response", some "A", none, none, none⟩⟩]⟩
    (by decide) (by decide)
    (Relation.ReflTransGen.single
      (CorrStep.deliver 0 ⟨"A", none⟩ ⟨none, some "response", some "A", none, none, none⟩
        [] [⟨"A", none⟩] rfl rfl rfl))

/-! ## Claim theorems: socket variant failure semantics -/

theorem finalize_ok_parses (p : List String → Bool) (cs out : List String)
    (h : finalize_buffer p cs = .ok out) : p out = true := by
  unfold finalize_buffer at h
  split at h
  · cases h
  · split at h
    next hp =>
      cases h
      exact hp
    next hp => cases h

theorem receive_ok_parses (p : List String → Bool) :
    ∀ evs chunks out, receive_full_response p evs chunks = .ok out → p out = true := by
  intro evs
  induction evs with
  | nil =>
    intro chunks out h
    exact finalize_ok_parses p chunks out h
  | cons e evs ih =>
    intro chunks out h
    cases e with
    | data b =>
      by_cases hb : b = ""
      · subst hb
        simp only [receive_full_response, if_pos] at h
        split at h
        · cases h
        · exact finalize_ok_parses p _ out h
      · simp only [receive_full_response, if_neg hb] at h
        split at h
        next hp =>
          cases h
          exact hp
        next hp => exact ih _ _ h
    | timeout =>
      simp only [receive_full_response] at h
      exact finalize_ok_parses p chunks out h
    | connError =>
      simp only [receive_full_response] at h
      cases h

theorem send_command_err_sock (c : UnityConnState) (env : SendEnv) (t : String)
    (ps : List (String × String)) (he : ((send_command c env t ps).1).isErr = true) :
    (send_command c env t ps).2.sock = none := by
  cases hs : (match c.sock with | some s => some s | none => env.connectSock) with
  | none => simp [send_command, hs]
  | some s =>
    cases hw : env.wire with
    | timeout => simp [send_command, hs, hw]
    | connError => simp [send_command, hs, hw]
    | ok =>
      cases hr : receive_full_response (envParses env) env.recvEvents [] with
      | ok chunks =>
        have hp : envParses env chunks = true :=
          receive_ok_parses (envParses env) env.recvEvents [] chunks hr
        obtain ⟨resp, hdec⟩ : ∃ resp, env.decode chunks = some resp := by
          unfold envParses at hp
          exact Option.isSome_iff_exists.mp hp
        by_cases hst : resp.status = some "error"
        · simp [send_command, hs, hw, hr, hdec, hst]
        · simp [send_command, hs, hw, hr, hdec, hst, CmdOutcome.isErr] at he
      | errClosedNoData => simp [send_command, hs, hw, hr]
      | errIncomplete => simp [send_command, hs, hw, hr]
      | errNoData => simp [send_command, hs, hw, hr]
      | errConn => simp [send_command, hs, hw, hr]

theorem send_command_ok_sock (c : UnityConnState) (env : SendEnv) (t : String)
    (ps : List (String × String)) (result : ResultPayload) (c2 : UnityConnState)
    (h : send_command c env t ps = (.ok result, c2)) :
    c2.sock = (match c.sock with | some s => some s | none => env.connectSock)
    ∧ c2.sock ≠ none := by
  cases hs : (match c.sock with | some s => some s | none => env.connectSock) with
  | none => simp [send_command, hs] at h
  | some s =>
    cases hw : env.wire with
    | timeout => simp [send_command, hs, hw] at h
    | connError => simp [send_command, hs, hw] at h
    | ok =>
      cases hr : receive_full_response (envParses env) env.recvEvents [] with
      | ok chunks =>
        cases hdec : env.decode chunks with
        | none => simp [send_command, hs, hw, hr, hdec] at h
        | some resp =>
          by_cases hst : resp.status = some "error"
          · simp [send_command, hs, hw, hr, hdec, hst] at h
          · simp only [send_command, hs, hw, hr, hdec, if_neg hst] at h
            cases h
            simp
      | errClosedNoData => simp [send_command, hs, hw, hr] at h
      | errIncomplete => simp [send_command, hs, hw, hr] at h
      | errNoData => simp [send_command, hs, hw, hr] at h
      | errConn => simp [send_command, hs, hw, hr] at h

theorem create_new_ok (newSock : Option Nat) (c' : UnityConnState)
    (g' : Option UnityConnState)
    (h : create_new_connection newSock = (.ok c', g')) :
    c'.sock = newSock ∧ c'.sock ≠ none ∧ g' = some c' := by
  cases newSock with
  | some s =>
    unfold create_new_connection at h
    injection h with h1 h2
    injection h1 with h1
    subst h1
    subst h2
    simp
  | none =>
    unfold create_new_connection at h
    injection h with h1 h2
    cases h1

theorem accessor_reconnects (c : UnityConnState) (pingEnv : SendEnv)
    (newSock : Option Nat) (c' : UnityConnState) (g' : Option UnityConnState)
    (hb : c.sock = none)
    (h : get_unity_connection (some c) pingEnv newSock = (.ok c', g')) :
    c'.sock ≠ none ∧ (c'.sock = pingEnv.connectSock ∨ c'.sock = newSock)
    ∧ g' = some c' := by
  cases hsc : send_command c pingEnv "ping" [] with
  | mk out c2 =>
    simp only [get_unity_connection, hsc] at h
    by_cases hok : ping_healthy out = true
    · rw [if_pos hok] at h
      obtain ⟨result, hout⟩ : ∃ result, out = CmdOutcome.ok result := by
        cases out with
        | ok result => exact ⟨result, rfl⟩
        | errNotConnected => simp [ping_healthy] at hok
        | errTimeout => simp [ping_healthy] at hok
        | errConnLost => simp [ping_healthy] at hok
        | errInvalidJson => simp [ping_healthy] at hok
        | errComm msg => simp [ping_healthy] at hok
      subst hout
      obtain ⟨hsock, hne⟩ := send_command_ok_sock c pingEnv "ping" [] result c2 hsc
      rw [hb] at hsock
      injection h with h1 h2
      injection h1 with h1
      subst h1
      subst h2
      exact ⟨hne, Or.inl hsock, rfl⟩
    · rw [if_neg hok] at h
      obtain ⟨h1, h2, h3⟩ := create_new_ok newSock c' g' h
      exact ⟨h2, Or.inr h1, h3⟩

/-- claim C7: (1) whenever `send_command` raises (timeout, connection
error, peer-reported error, or a receive failure), the state it leaves
behind has `sock = none` — the connection is invalidated before the error
propagates (the only handler that keeps the socket, the dead
`json.JSONDecodeError` branch, is unreachable because
`receive_full_response` only returns buffers that already parsed); and
(2) when the global connection is broken (`sock = none`), a successful
`get_unity_connection` call never reuses it: the connection it returns
went through the ping health check and carries a freshly connected
socket — either the ping's inline reconnect (`pingEnv.connectSock`) or a
newly built connection (`newSock`) — and becomes the new global. -/
theorem io_error_invalidates_connection :
    (∀ c env t ps, ((send_command c env t ps).1).isErr = true →
        (send_command c env t ps).2.sock = none)
    ∧ (∀ c pingEnv newSock c' g', c.sock = none →
        get_unity_connection (some c) pingEnv newSock = (.ok c', g') →
        c'.sock ≠ none ∧ (c'.sock = pingEnv.connectSock ∨ c'.sock = newSock)
          ∧ g' = some c') :=
  ⟨send_command_err_sock,
   fun c pingEnv newSock c' g' hb h =>
     accessor_reconnects c pingEnv newSock c' g' hb h⟩

/-- Witness for claim C7: a connection-error send clears the socket, and
the accessor on a broken connection returns the freshly pinged socket. -/
theorem io_error_invalidates_connection_witness :
    (send_command ⟨some 1⟩ ⟨some 2, .connError, [], fun _ => none⟩ "ping" []).2.sock
        = none
    ∧ ((⟨some 2⟩ : UnityConnState).sock ≠ none
       ∧ ((⟨some 2⟩ : UnityConnState).sock
            = (⟨some 2, .ok, [ReadEvent.data "resp"],
                fun _ => some ⟨none, none, some ⟨some "ok", "pong"⟩⟩⟩ : SendEnv).connectSock
          ∨ (⟨some 2⟩ : UnityConnState).sock = some 3)
       ∧ (some (⟨some 2⟩ : UnityConnState) : Option UnityConnState) = some ⟨some 2⟩) :=
  ⟨io_error_invalidates_connection.1 ⟨some 1⟩ ⟨some 2, .connError, [], fun _ => none⟩
      "ping" [] rfl,
   io_error_invalidates_connection.2 ⟨none⟩
      ⟨some 2, .ok, [ReadEvent.data "resp"],
        fun _ => some ⟨none, none, some ⟨some "ok", "pong"⟩⟩⟩
      (some 3) ⟨some 2⟩ (some ⟨some 2⟩) rfl rfl⟩

/-- Counterexample to claim C2 as stated: in the socket variant,
`UnityConnection.send_command` called with no socket does not fail with a
transport error — it reconnects inline (`if not self.sock and not
self.connect()`) and then blocks awaiting the response, returning the
response's result payload rather than an id: concretely, from
`sock = None` with a reachable peer it returns the ok outcome and leaves
a freshly connected socket behind. -/
theorem send_command_inline_reconnect_cx :
    send_command ⟨none⟩
        ⟨some 1, .ok, [ReadEvent.data "resp"],
          fun _ => some ⟨none, none, some ⟨some "ok", "pong"⟩⟩⟩ "ping" []
      = (.ok ⟨some "ok", "pong"⟩, ⟨some 1⟩)
    ∧ (send_command ⟨none⟩
        ⟨some 1, .ok, [ReadEvent.data "resp"],
          fun _ => some ⟨none, none, some ⟨some "ok", "pong"⟩⟩⟩ "ping" []).1
      ≠ .errNotConnected :=
  ⟨rfl, by decide⟩

/-- claim C2 (amended): in the websocket variant, `send_command_to_unity`
serializes the command with its generated id and returns the id
immediately — the server state (including the response queue) is left
untouched, so nothing waits for a response — and with no Unity client it
returns the error value without attempting any reconnection (the state,
still without a client, is unchanged).  In the socket variant,
`send_command` with no socket instead behaves exactly as if it had first
connected inline to the fresh socket. -/
theorem send_command_returns_id_amended :
    (∀ cc q cmd ps fresh werr,
      send_command_to_unity ⟨cc, none, q⟩ cmd ps fresh werr
        = ("no Unity client connected", none, ⟨cc, none, q⟩))
    ∧ (∀ cc cl q cmd ps fresh,
      send_command_to_unity ⟨cc, some cl, q⟩ cmd ps fresh none
        = (fresh, some ⟨cmd, ps ++ [("message_id", fresh)], fresh⟩, ⟨cc, some cl, q⟩))
    ∧ (∀ c env t ps s, c.sock = none → env.connectSock = some s →
      send_command c env t ps = send_command ⟨some s⟩ env t ps) := by
  refine ⟨fun cc q cmd ps fresh werr => rfl, fun cc cl q cmd ps fresh => rfl, ?_⟩
  intro c env t ps s hc hs
  unfold send_command
  rw [hc, hs]

/-- Witness for claim C2 (amended) at concrete inputs. -/
theorem send_command_returns_id_amended_witness :
    send_command_to_unity ⟨[], none, []⟩ "ping" [] "u1" none
        = ("no Unity client connected", none, ⟨[], none, []⟩)
    ∧ send_command_to_unity ⟨[], some 7, []⟩ "ping" [("a", "b")] "u1" none
        = ("u1", some ⟨"ping", [("a", "b"), ("message_id", "u1")], "u1"⟩, ⟨[], some 7, []⟩)
    ∧ send_command ⟨none⟩ ⟨some 4, .ok, [], fun _ => none⟩ "ping" []
        = send_command ⟨some 4⟩ ⟨some 4, .ok, [], fun _ => none⟩ "ping" [] :=
  ⟨send_command_returns_id_amended.1 [] [] "ping" [] "u1" none,
   send_command_returns_id_amended.2.1 [] 7 [] "ping" [("a", "b")] "u1",
   send_command_returns_id_amended.2.2 ⟨none⟩ ⟨some 4, .ok, [], fun _ => none⟩
     "ping" [] 4 rfl rfl⟩

/-! ## Claim theorems: primary peer designation and the reload sentinel -/

/-- Counterexample to claim C8 as stated: when the endpoint designated as
the Unity peer disconnects, the `finally:` block removes it from
`connected_clients` but never clears `unity_client` — the stale reference
to the departed endpoint (id 7) survives the disconnect handler. -/
theorem primary_disconnect_stale_cx :
    (handle_disconnect ⟨[7], some 7, []⟩ 7).unity_client = some 7
    ∧ (handle_disconnect ⟨[7], some 7, []⟩ 7).connected_clients = [] := by
  constructor <;> rfl

/-- claim C8 (amended): a connected endpoint announcing
`client == "Unity"` is designated the primary peer; on disconnect the
endpoint is removed from the connected-clients set, but the primary
designation is not cleared — `unity_client` is left untouched (no other
endpoint is promoted, and the departed endpoint may remain referenced
until a new Unity announcement replaces it). -/
theorem primary_designation_amended :
    (∀ s ws m, m.client = some "Unity" →
      (processMessage s ws m).unity_client = some ws)
    ∧ (∀ s ws,
      (handle_disconnect s ws).connected_clients = s.connected_clients.erase ws
      ∧ (handle_disconnect s ws).unity_client = s.unity_client) := by
  constructor
  · intro s ws m hm
    simp [processMessage, hm]
  · intro s ws
    exact ⟨rfl, rfl⟩

/-- Witness for claim C8 (amended): a Unity announcement from endpoint 3
designates it as the primary peer. -/
theorem primary_designation_amended_witness :
    (processMessage ⟨[3], none, []⟩ 3
      ⟨some "Unity", none, none, none, none, none⟩).unity_client = some 3 :=
  primary_designation_amended.1 ⟨[3], none, []⟩ 3
    ⟨some "Unity", none, none, none, none, none⟩ rfl

/-- claim C9: with the command's response (keyed by the generated id) and
the reload notification (keyed by the fixed sentinel
`SpecialMessages.RELOAD_SCRIPTS = "reload_scripts"`, not by a generated
UUID — third conjunct) queued, `add_script_to_project` and
`edit_existing_script` first consume the per-command response by its
UUID, then await the reload event by the sentinel id, and report success
or no-reload according to the event's `success` flag. -/
theorem script_reload_sentinel_wait (cl : Nat) (cc : List Nat)
    (fresh rp sc : String) (d1 : Option String) (b : Bool)
    (hfresh : fresh ≠ SpecialMessages.RELOAD_SCRIPTS) :
    (add_script_to_project ⟨cc, some cl,
        [⟨none, some "response", some fresh, none, d1, none⟩,
         ⟨none, some "response", some SpecialMessages.RELOAD_SCRIPTS, some b, none, none⟩]⟩
        rp sc fresh none).1
      = (if b then "Script added and reloaded successfully: " ++ dumpData d1
         else "Script added successfully but did not reload: " ++ dumpData d1)
    ∧ (edit_existing_script ⟨cc, some cl,
        [⟨none, some "response", some fresh, none, d1, none⟩,
         ⟨none, some "response", some SpecialMessages.RELOAD_SCRIPTS, some b, none, none⟩]⟩
        rp sc fresh none).1
      = (if b then "Script edited and reloaded successfully: " ++ dumpData d1
         else "Script edited successfully but did not reload: " ++ dumpData d1)
    ∧ (⟨none, some "response", some SpecialMessages.RELOAD_SCRIPTS, some b, none, none⟩ :
        JsonMsg).message_id ≠ some fresh := by
  have h1 : wait_for_response fresh default_timeout
      [⟨none, some "response", some fresh, none, d1, none⟩,
       ⟨none, some "response", some SpecialMessages.RELOAD_SCRIPTS, some b, none, none⟩]
      = (⟨none, some "response", some fresh, none, d1, none⟩,
         [⟨none, some "response", some SpecialMessages.RELOAD_SCRIPTS, some b, none, none⟩],
         0) := by
    unfold wait_for_response
    rw [wait_aux_found_head fresh (10 * default_timeout) 0 _ _ rfl
      (by norm_num [default_timeout])]
  have h2 : wait_for_response SpecialMessages.RELOAD_SCRIPTS default_timeout
      [⟨none, some "response", some SpecialMessages.RELOAD_SCRIPTS, some b, none, none⟩]
      = (⟨none, some "response", some SpecialMessages.RELOAD_SCRIPTS, some b, none, none⟩,
         [], 0) := by
    unfold wait_for_response
    rw [wait_aux_found_head SpecialMessages.RELOAD_SCRIPTS (10 * default_timeout) 0 _ _ rfl
      (by norm_num [default_timeout])]
  refine ⟨?_, ?_, ?_⟩
  · simp only [add_script_to_project, send_command_to_unity, h1, h2]
    cases b <;> simp
  · simp only [edit_existing_script, send_command_to_unity, h1, h2]
    cases b <;> simp
  · intro h
    injection h with h'
    exact hfresh h'.symm

/-- Witness for claim C9 at a concrete input. -/
theorem script_reload_sentinel_wait_witness :
    (add_script_to_project ⟨[], some 1,
        [⟨none, some "response", some "u1", none, none, none⟩,
         ⟨none, some "response", some SpecialMessages.RELOAD_SCRIPTS, some true, none, none⟩]⟩
        "a" "b" "u1" none).1
      = (if true then "Script added and reloaded successfully: " ++ dumpData none
         else "Script added successfully but did not reload: " ++ dumpData none)
    ∧ (edit_existing_script ⟨[], some 1,
        [⟨none, some "response", some "u1", none, none, none⟩,
         ⟨none, some "response", some SpecialMessages.RELOAD_SCRIPTS, some true, none, none⟩]⟩
        "a" "b" "u1" none).1
      = (if true then "Script edited and reloaded successfully: " ++ dumpData none
         else "Script edited successfully but did not reload: " ++ dumpData none)
    ∧ (⟨none, some "response", some SpecialMessages.RELOAD_SCRIPTS, some true, none, none⟩ :
        JsonMsg).message_id ≠ some "u1" :=
  script_reload_sentinel_wait 1 [] "u1" "a" "b" none true (by decide)
